import Mathlib

/-!
Shallow embedding of the remote server's message-dispatch and
response-correlation engine (crates/remote_server/src/remote_server.rs),
together with theorems settling the specification's claims about it.

The embedding keeps the source's structure: the handler registry is a
kind-keyed map of type-erased entries built by a chain of inserts
(Handlers::add), each handler is a function from its concrete request to a
record of the frames it sent, the filesystem effects it performed, its
success-or-error outcome, and the updated server state; dispatch
(Server::handle_message) looks the entry up by the payload's kind identity,
runs it, converts an error outcome into a terminal error frame, and models
the Drop impl of ResponseInner by appending the empty completion marker
whenever the correlator's last reference is released (i.e. whenever the
handler did not retain a clone of it, as add_worktree does inside its
update-observer closure).

External collaborators (the fs crate, the worktree crate, the rpc proto
shapes, the text crate's LineEnding) are not in the sources under study;
they are modelled from the spec as explicit data, with the outbound channel
an order-preserving list of envelopes.
-/

namespace RemoteServer

/-- Modelled from the spec: the text crate's line-ending conventions; two
recognized values, Unix and Windows. -/
inductive LineEnding where
  | unix
  | windows
deriving DecidableEq, Repr

/-- Modelled from the spec: the outbound wire payloads of the rpc proto
crate used by this server (section 6 of the spec): response shapes, the
Error payload (code, tags, message), and the opaque worktree update pushed
by the subscription bridge. -/
inductive Payload where
  | ack
  | readFileResponse (content : String)
  | pathResponse (path : String)
  | readDirResponse (paths : List String)
  | statResponse (is_dir is_symlink : Bool) (mtime : Nat) (inode : Nat)
  | addWorktreeResponse (worktree_id : Nat)
  | error (code : Nat) (tags : List String) (message : String)
  | worktreeUpdate (update : Nat)
deriving DecidableEq, Repr

/-- Modelled from the spec: the wire envelope, rpc proto Envelope with the
fields id, original_sender_id, payload, responding_to. -/
structure Envelope where
  id : Nat
  original_sender_id : Option Nat
  payload : Option Payload
  responding_to : Option Nat
deriving DecidableEq, Repr

/-- Modelled from the spec: the metadata record returned by the fs
capability, with mtime as a signed count of milliseconds relative to the
Unix epoch (a SystemTime may lie before the epoch, in which case
duration_since the epoch fails). -/
structure Metadata where
  is_dir : Bool
  is_symlink : Bool
  mtime : Int
  inode : Nat
deriving DecidableEq, Repr

/-- Filesystem calls a handler can perform, recorded as an effect trace so
the theorems can speak about what was persisted and how. -/
inductive FsOp where
  | load (path : String)
  | save (path content : String) (line_ending : LineEnding)
  | metadata (path : String)
  | canonicalize (path : String)
  | read_link (path : String)
  | read_dir (path : String)
deriving DecidableEq, Repr

/-- Modelled from the spec: the fs capability consumed by the server
(load, save, metadata, canonicalize, read_link, and the directory-entry
sequence, whose items may individually fail). -/
structure Fs where
  load : String → Except String String
  save : String → String → LineEnding → Except String Unit
  metadata : String → Except String (Option Metadata)
  canonicalize : String → Except String String
  read_link : String → Except String String
  read_dir : String → Except String (List (Except String String))

/-- Registration record left on a worktree by observe_updates: it captures
the outbound sender (identified by its channel id) through which every
subsequent update is forwarded. -/
structure ObserverReg where
  tx : Nat
deriving DecidableEq, Repr

/-- Modelled from the spec: the worktree collaborator, reduced to what the
server observes of it: its identifier (id().to_proto()), its root path, and
the update observer registered on it, if any. -/
structure Worktree where
  wid : Nat
  root : String
  observer : Option ObserverReg
deriving DecidableEq, Repr

/-- ServerState from the source: the ordered list of active worktrees and
the shared next_entry_id allocator (modelled by its counter value). -/
structure ServerState where
  worktrees : List Worktree
  next_entry_id : Nat
deriving DecidableEq, Repr

/-- The server's environment: the fs capability and the worktree
constructor Worktree::local, modelled from the spec as a function of the
requested root path and the shared entry-id allocator handle that either
fails or yields a new worktree (its update scan runs in the background). -/
structure ServerEnv where
  fs : Fs
  worktreeLocal : String → Nat → Except String Worktree

/-- Outcome of one handler invocation: the future resolved Ok, resolved
Err, or the handler panicked (unwound) before resolving. -/
inductive HOutcome where
  | ok
  | error (msg : String)
  | panicked (msg : String)
deriving DecidableEq, Repr

/-- Result of running one handler body: its outcome, the envelopes it
explicitly sent on the outbound channel in order, the fs calls it made, in
order, whether it retained a clone of the response correlator beyond its
own return (add_worktree stores one in the observe_updates closure), and
the server state it left behind. -/
structure HandlerRun where
  outcome : HOutcome
  frames : List Envelope
  effects : List FsOp
  retained : Bool
  state : ServerState
deriving DecidableEq, Repr

/-- ResponseInner from the source: the request id the correlator is bound
to and the outbound sender (identified by its channel id). -/
structure ResponseInner where
  id : Nat
  tx : Nat
deriving DecidableEq, Repr

/-- Envelope built by Response::send: payload.into_envelope(0, Some(id),
None). -/
def mkReply (reqId : Nat) (p : Payload) : Envelope :=
  { id := 0, original_sender_id := none, payload := some p, responding_to := some reqId }

/-- Envelope built by ResponseInner::send_error: an Error payload with
code 0, empty tags, and the error's description, responding to the bound
request id. -/
def errorEnvelope (reqId : Nat) (msg : String) : Envelope :=
  mkReply reqId (.error 0 [] msg)

/-- Envelope sent by the Drop impl of ResponseInner: payload None,
responding_to the bound request id — the empty completion marker. -/
def markerEnvelope (reqId : Nat) : Envelope :=
  { id := 0, original_sender_id := none, payload := none, responding_to := some reqId }

/-- Envelope produced by the observe_updates callback registered by
add_worktree: update.into_envelope(0, None, None), an unsolicited push
with responding_to None. -/
def observerEmit (update : Nat) : Envelope :=
  { id := 0, original_sender_id := none, payload := some (.worktreeUpdate update), responding_to := none }

/-- Forwarding of a sequence of worktree updates through the registered
callback: each update is sent as soon as it is observed, so the envelopes
appear on the channel in emission order. -/
def observerForward (updates : List Nat) : List Envelope :=
  updates.map observerEmit

/-- Modelled from the spec: the numeric wire value of the proto
write_file LineEnding Unix variant, the first of the two recognized
values (the concrete number is immaterial to the claims, which only
distinguish the Unix value from every other value). -/
def writeFileLineEndingUnixValue : Int := 0

/-- Panic message of the unwrap in Server::stat when mtime precedes the
Unix epoch. -/
def mtimePanicMessage : String := "stat: mtime.duration_since(UNIX_EPOCH) failed"

namespace Server

/-- Server::ping — sends an Ack and resolves Ok. -/
def ping (_env : ServerEnv) (_req : Unit) (resp : ResponseInner) (s : ServerState) : HandlerRun :=
  { outcome := .ok
    frames := [mkReply resp.id .ack]
    effects := []
    retained := false
    state := s }

/-- Server::read_file — loads the file's full content and sends it; an fs
failure resolves the handler to that error with nothing sent. -/
def read_file (env : ServerEnv) (path : String) (resp : ResponseInner) (s : ServerState) : HandlerRun :=
  match env.fs.load path with
  | .error e =>
    { outcome := .error e, frames := [], effects := [.load path], retained := false, state := s }
  | .ok content =>
    { outcome := .ok
      frames := [mkReply resp.id (.readFileResponse content)]
      effects := [.load path]
      retained := false
      state := s }

/-- Server::read_link — resolves the symlink target and sends it as a
path response. -/
def read_link (env : ServerEnv) (path : String) (resp : ResponseInner) (s : ServerState) : HandlerRun :=
  match env.fs.read_link path with
  | .error e =>
    { outcome := .error e, frames := [], effects := [.read_link path], retained := false, state := s }
  | .ok target =>
    { outcome := .ok
      frames := [mkReply resp.id (.pathResponse target)]
      effects := [.read_link path]
      retained := false
      state := s }

/-- Server::canonicalize — resolves the canonical path and sends it as a
path response. -/
def canonicalize (env : ServerEnv) (path : String) (resp : ResponseInner) (s : ServerState) : HandlerRun :=
  match env.fs.canonicalize path with
  | .error e =>
    { outcome := .error e, frames := [], effects := [.canonicalize path], retained := false, state := s }
  | .ok target =>
    { outcome := .ok
      frames := [mkReply resp.id (.pathResponse target)]
      effects := [.canonicalize path]
      retained := false
      state := s }

end Server

/-- The while-let loop of Server::read_dir: drain the directory-entry
sequence, accumulating each entry's path, and abort with the first
entry-level error (the question-mark on item). -/
def drainDir : List (Except String String) → Except String (List String)
  | [] => .ok []
  | .error e :: _ => .error e
  | .ok p :: rest =>
    match drainDir rest with
    | .error e => .error e
    | .ok ps => .ok (p :: ps)

namespace Server

/-- Server::read_dir — obtains the directory-entry sequence, drains it
fully into a path list, and only then sends the list; any error (opening
the stream, or the first failing entry) resolves the handler to that error
with nothing sent. -/
def read_dir (env : ServerEnv) (path : String) (resp : ResponseInner) (s : ServerState) : HandlerRun :=
  match env.fs.read_dir path with
  | .error e =>
    { outcome := .error e, frames := [], effects := [.read_dir path], retained := false, state := s }
  | .ok items =>
    match drainDir items with
    | .error e =>
      { outcome := .error e, frames := [], effects := [.read_dir path], retained := false, state := s }
    | .ok paths =>
      { outcome := .ok
        frames := [mkReply resp.id (.readDirResponse paths)]
        effects := [.read_dir path]
        retained := false
        state := s }

/-- Server::stat — fetches metadata; when present, sends a stat response
whose mtime is duration_since(UNIX_EPOCH).unwrap().as_millis() as u64 (a
panic when mtime precedes the epoch); when absent, sends nothing and
resolves Ok. -/
def stat (env : ServerEnv) (path : String) (resp : ResponseInner) (s : ServerState) : HandlerRun :=
  match env.fs.metadata path with
  | .error e =>
    { outcome := .error e, frames := [], effects := [.metadata path], retained := false, state := s }
  | .ok none =>
    { outcome := .ok, frames := [], effects := [.metadata path], retained := false, state := s }
  | .ok (some md) =>
    if md.mtime < 0 then
      { outcome := .panicked mtimePanicMessage
        frames := []
        effects := [.metadata path]
        retained := false
        state := s }
    else
      { outcome := .ok
        frames := [mkReply resp.id (.statResponse md.is_dir md.is_symlink (md.mtime.toNat % 2 ^ 64) md.inode)]
        effects := [.metadata path]
        retained := false
        state := s }

/-- Server::write_file — saves the content at the path with LineEnding
Unix when the request's line_ending equals the Unix wire value and
LineEnding Windows otherwise, sends nothing, and returns the save's
result directly. -/
def write_file (env : ServerEnv) (req : String × String × Int) (_resp : ResponseInner) (s : ServerState) : HandlerRun :=
  let le := if req.2.2 = writeFileLineEndingUnixValue then LineEnding.unix else LineEnding.windows
  match env.fs.save req.1 req.2.1 le with
  | .error e =>
    { outcome := .error e, frames := [], effects := [.save req.1 req.2.1 le], retained := false, state := s }
  | .ok _ =>
    { outcome := .ok, frames := [], effects := [.save req.1 req.2.1 le], retained := false, state := s }

end Server

/-- Body of the state.update closure of Server::add_worktree: within one
borrow of ServerState it registers the update observer on the worktree
(capturing a clone of the correlator as the sender), appends the worktree
to the state's list, and sends the reply carrying that worktree's id — a
single atomic unit of work against ServerState. -/
def addWorktreeCommit (resp : ResponseInner) (wt : Worktree) (s : ServerState) : ServerState × Envelope :=
  let wt' : Worktree := { wt with observer := some { tx := resp.tx } }
  ({ s with worktrees := s.worktrees ++ [wt'] },
    mkReply resp.id (.addWorktreeResponse wt'.wid))

namespace Server

/-- Server::add_worktree — reads the shared entry-id allocator, constructs
the worktree (propagating a construction failure), then in one atomic
state update registers the observer, appends the worktree, and replies
with the new worktree's id. The correlator clone captured by the observer
closure outlives the handler, so the correlator is retained. -/
def add_worktree (env : ServerEnv) (path : String) (resp : ResponseInner) (s : ServerState) : HandlerRun :=
  let next_entry_id := s.next_entry_id
  match env.worktreeLocal path next_entry_id with
  | .error e =>
    { outcome := .error e, frames := [], effects := [], retained := false, state := s }
  | .ok wt =>
    let r := addWorktreeCommit resp wt s
    { outcome := .ok, frames := [r.2], effects := [], retained := true, state := r.1 }

end Server

/-- Message-kind identity: the embedding of TypeId as used to key the
handler registry — one tag per request type registered by build_handlers,
plus a tag for every other (unregistered) payload type. -/
inductive MsgKind where
  | ping
  | writeFile
  | stat
  | canonicalize
  | readLink
  | readDir
  | readFile
  | addWorktree
  | other (name : String)
deriving DecidableEq, Repr

/-- Modelled from the spec: the inbound request payload shapes of the rpc
proto crate that the transport can deliver; the unregistered constructor
stands for every payload type with no handler registry entry. -/
inductive RequestPayload where
  | ping
  | writeFile (path content : String) (line_ending : Int)
  | stat (path : String)
  | canonicalize (path : String)
  | readLink (path : String)
  | readDir (path : String)
  | readFile (path : String)
  | addWorktree (path : String)
  | unregistered (name : String)
deriving DecidableEq, Repr

/-- The payload_type_id of an opaque incoming message: the kind identity
its concrete payload type declares. -/
def RequestPayload.typeId : RequestPayload → MsgKind
  | .ping => .ping
  | .writeFile _ _ _ => .writeFile
  | .stat _ => .stat
  | .canonicalize _ => .canonicalize
  | .readLink _ => .readLink
  | .readDir _ => .readDir
  | .readFile _ => .readFile
  | .addWorktree _ => .addWorktree
  | .unregistered n => .other n

/-- Box of dyn AnyTypedEnvelope: the opaque, dynamically-typed incoming
message, carrying its message id and its concrete payload behind type
erasure. -/
structure OpaqueMsg where
  message_id : Nat
  payload : RequestPayload
deriving DecidableEq, Repr

/-- Downcast of the opaque payload to proto::Ping. -/
def asPing : RequestPayload → Option Unit
  | .ping => some ()
  | _ => none

/-- Downcast of the opaque payload to proto::WriteFile. -/
def asWriteFile : RequestPayload → Option (String × String × Int)
  | .writeFile p c le => some (p, c, le)
  | _ => none

/-- Downcast of the opaque payload to proto::Stat. -/
def asStat : RequestPayload → Option String
  | .stat p => some p
  | _ => none

/-- Downcast of the opaque payload to proto::Canonicalize. -/
def asCanonicalize : RequestPayload → Option String
  | .canonicalize p => some p
  | _ => none

/-- Downcast of the opaque payload to proto::ReadLink. -/
def asReadLink : RequestPayload → Option String
  | .readLink p => some p
  | _ => none

/-- Downcast of the opaque payload to proto::ReadDir. -/
def asReadDir : RequestPayload → Option String
  | .readDir p => some p
  | _ => none

/-- Downcast of the opaque payload to proto::ReadFile. -/
def asReadFile : RequestPayload → Option String
  | .readFile p => some p
  | _ => none

/-- Downcast of the opaque payload to proto::AddWorktree. -/
def asAddWorktree : RequestPayload → Option String
  | .addWorktree p => some p
  | _ => none

/-- One registrable request type M of the RequestMessage capability: the
kind identity TypeId::of M used as the registry key, and the downcast of
an opaque payload to M's concrete request data. -/
structure RequestType (α : Type) where
  kind : MsgKind
  downcast : RequestPayload → Option α

/-- RequestType record for proto::Ping. -/
def pingType : RequestType Unit := { kind := .ping, downcast := asPing }

/-- RequestType record for proto::WriteFile. -/
def writeFileType : RequestType (String × String × Int) := { kind := .writeFile, downcast := asWriteFile }

/-- RequestType record for proto::Stat. -/
def statType : RequestType String := { kind := .stat, downcast := asStat }

/-- RequestType record for proto::Canonicalize. -/
def canonicalizeType : RequestType String := { kind := .canonicalize, downcast := asCanonicalize }

/-- RequestType record for proto::ReadLink. -/
def readLinkType : RequestType String := { kind := .readLink, downcast := asReadLink }

/-- RequestType record for proto::ReadDir. -/
def readDirType : RequestType String := { kind := .readDir, downcast := asReadDir }

/-- RequestType record for proto::ReadFile. -/
def readFileType : RequestType String := { kind := .readFile, downcast := asReadFile }

/-- RequestType record for proto::AddWorktree. -/
def addWorktreeType : RequestType String := { kind := .addWorktree, downcast := asAddWorktree }

/-- The type-erased MessageHandler stored in the registry: invoked with
the server environment, the opaque incoming message, the shared response
correlator, and the current state; returns none exactly when the downcast
of the opaque message fails (the source's unwrap would panic there). -/
structure MessageHandler where
  run : ServerEnv → OpaqueMsg → ResponseInner → ServerState → Option HandlerRun

/-- The handler registry: the kind-keyed map of Handlers, embedded as an
association list. -/
def Handlers := List (MsgKind × MessageHandler)

/-- The type-erasing closure built by Handlers::add for one statically
typed handler: it downcasts the opaque incoming message to the handler's
declared concrete type (none models the unwrap panic on a failed
downcast) and forwards to the handler. -/
def eraseHandler {α : Type} (t : RequestType α)
    (h : ServerEnv → α → ResponseInner → ServerState → HandlerRun) : MessageHandler :=
  { run := fun env msg resp s => (t.downcast msg.payload).map (fun req => h env req resp s) }

/-- Handlers::add — inserts the type-erased entry under TypeId::of M.
Insertion overwrites any previous entry under the same key, as
HashMap::insert does. -/
def Handlers.add {α : Type} (hs : Handlers) (t : RequestType α)
    (h : ServerEnv → α → ResponseInner → ServerState → HandlerRun) : Handlers :=
  (t.kind, eraseHandler t h) :: List.filter (fun kv => decide (kv.1 ≠ t.kind)) hs

/-- Registry lookup by kind: the single mapping access of dispatch. -/
def lookupHandler (hs : Handlers) (k : MsgKind) : Option MessageHandler :=
  (List.find? (fun kv => decide (kv.1 = k)) hs).map Prod.snd

namespace Server

/-- Server::build_handlers — the registry built once at startup, in the
source's registration order. -/
def build_handlers : Handlers :=
  Handlers.add
    (Handlers.add
      (Handlers.add
        (Handlers.add
          (Handlers.add
            (Handlers.add
              (Handlers.add
                (Handlers.add [] pingType Server.ping)
                writeFileType Server.write_file)
              statType Server.stat)
            canonicalizeType Server.canonicalize)
          readLinkType Server.read_link)
        readDirType Server.read_dir)
      readFileType Server.read_file)
    addWorktreeType Server.add_worktree

end Server

/-- What one call of handle_message leaves behind: the envelopes it put on
the outbound channel in order, the fs effects performed, the resulting
server state, and whether (and with which message) the call unwound in a
panic instead of returning. -/
structure DispatchResult where
  sent : List Envelope
  effects : List FsOp
  state : ServerState
  panicked : Option String
deriving Repr

/-- Completion of a dispatched handler invocation: lines 105-109 of the
source plus the Drop impl of ResponseInner. An Err outcome is converted
into a terminal error frame through the correlator; afterwards the last
correlator reference is released unless the handler retained a clone, and
releasing it sends the empty completion marker — also while a panic
unwinds, since destructors run during unwinding. -/
def finishDispatch (reqId : Nat) (r : HandlerRun) : DispatchResult :=
  match r.outcome with
  | .ok =>
    { sent := r.frames ++ (if r.retained then [] else [markerEnvelope reqId])
      effects := r.effects
      state := r.state
      panicked := none }
  | .error e =>
    { sent := r.frames ++ [errorEnvelope reqId e]
        ++ (if r.retained then [] else [markerEnvelope reqId])
      effects := r.effects
      state := r.state
      panicked := none }
  | .panicked m =>
    { sent := r.frames ++ (if r.retained then [] else [markerEnvelope reqId])
      effects := r.effects
      state := r.state
      panicked := some m }

/-- Server::handle_message — builds the correlator bound to the message id
and outbound sender, looks the handler up by the payload's kind identity,
runs it, and completes the dispatch (error conversion plus the automatic
completion marker of the correlator's Drop). When no entry exists it
sends the error frame "unhandled request type" and then the marker as the
correlator is discarded. When the entry's downcast fails the unwrap
panics; the correlator is dropped during unwinding, sending the marker. -/
def Server.handle_message (env : ServerEnv) (msg : OpaqueMsg) (tx : Nat) (s : ServerState) : DispatchResult :=
  let resp : ResponseInner := { id := msg.message_id, tx := tx }
  match lookupHandler Server.build_handlers msg.payload.typeId with
  | some h =>
    match h.run env msg resp s with
    | none =>
      { sent := [markerEnvelope msg.message_id]
        effects := []
        state := s
        panicked := some "downcast to the typed envelope failed" }
    | some r => finishDispatch msg.message_id r
  | none =>
    { sent := [errorEnvelope msg.message_id "unhandled request type", markerEnvelope msg.message_id]
      effects := []
      state := s
      panicked := none }

/-- The frames of a channel trace that respond to the given request id —
the terminal frames for that request in the spec's sense. -/
def terminalFrames (reqId : Nat) (es : List Envelope) : List Envelope :=
  List.filter (fun e => decide (e.responding_to = some reqId)) es

/-- First failing entry of a directory-entry sequence, if any. -/
def firstError : List (Except String String) → Option String
  | [] => none
  | .error e :: _ => some e
  | .ok _ :: rest => firstError rest

/-- Paths of the successful entries of a directory-entry sequence, in
order (on an error-free sequence, all of its entries). -/
def okPaths : List (Except String String) → List String
  | [] => []
  | .error _ :: rest => okPaths rest
  | .ok p :: rest => p :: okPaths rest

/-- Concrete filesystem used to instantiate the theorems with hypotheses:
no file is readable, every save succeeds, no path has metadata,
canonicalize is the identity, no symlinks, the root directory is empty. -/
def fsTest : Fs :=
  { load := fun _ => .error "No such file"
    save := fun _ _ _ => .ok ()
    metadata := fun _ => .ok none
    canonicalize := fun p => .ok p
    read_link := fun _ => .error "not a symlink"
    read_dir := fun _ => .ok [] }

/-- Concrete environment over fsTest whose worktree constructor always
succeeds with worktree id 42. -/
def envTest : ServerEnv :=
  { fs := fsTest
    worktreeLocal := fun p _ => .ok { wid := 42, root := p, observer := none } }

/-- Empty initial server state. -/
def s0 : ServerState := { worktrees := [], next_entry_id := 0 }

/-- Concrete filesystem whose directory-entry sequence for every path has
a failing entry between two successful ones. -/
def fsDirErr : Fs :=
  { fsTest with read_dir := fun _ => .ok [.ok "/d/a", .error "boom", .ok "/d/b"] }

/-- Concrete environment over fsDirErr. -/
def envDirErr : ServerEnv :=
  { envTest with fs := fsDirErr }

/-- Concrete filesystem on which every path has metadata whose mtime lies
one millisecond before the Unix epoch. -/
def fsPreEpoch : Fs :=
  { fsTest with
    metadata := fun _ => .ok (some { is_dir := false, is_symlink := false, mtime := -1, inode := 17 }) }

/-- Concrete environment over fsPreEpoch. -/
def envPreEpoch : ServerEnv :=
  { envTest with fs := fsPreEpoch }

/-- Dispatch of a Ping message reduces to running the ping handler and
completing. -/
theorem handle_message_ping (env : ServerEnv) (id tx : Nat) (s : ServerState) :
    Server.handle_message env ⟨id, .ping⟩ tx s = finishDispatch id (Server.ping env () ⟨id, tx⟩ s) := rfl

/-- Dispatch of a WriteFile message reduces to running the write_file
handler and completing. -/
theorem handle_message_write_file (env : ServerEnv) (p c : String) (le : Int) (id tx : Nat) (s : ServerState) :
    Server.handle_message env ⟨id, .writeFile p c le⟩ tx s
      = finishDispatch id (Server.write_file env (p, c, le) ⟨id, tx⟩ s) := rfl

/-- Dispatch of a Stat message reduces to running the stat handler and
completing. -/
theorem handle_message_stat (env : ServerEnv) (p : String) (id tx : Nat) (s : ServerState) :
    Server.handle_message env ⟨id, .stat p⟩ tx s = finishDispatch id (Server.stat env p ⟨id, tx⟩ s) := rfl

/-- Dispatch of a Canonicalize message reduces to running the canonicalize
handler and completing. -/
theorem handle_message_canonicalize (env : ServerEnv) (p : String) (id tx : Nat) (s : ServerState) :
    Server.handle_message env ⟨id, .canonicalize p⟩ tx s
      = finishDispatch id (Server.canonicalize env p ⟨id, tx⟩ s) := rfl

/-- Dispatch of a ReadLink message reduces to running the read_link
handler and completing. -/
theorem handle_message_read_link (env : ServerEnv) (p : String) (id tx : Nat) (s : ServerState) :
    Server.handle_message env ⟨id, .readLink p⟩ tx s
      = finishDispatch id (Server.read_link env p ⟨id, tx⟩ s) := rfl

/-- Dispatch of a ReadDir message reduces to running the read_dir handler
and completing. -/
theorem handle_message_read_dir (env : ServerEnv) (p : String) (id tx : Nat) (s : ServerState) :
    Server.handle_message env ⟨id, .readDir p⟩ tx s
      = finishDispatch id (Server.read_dir env p ⟨id, tx⟩ s) := rfl

/-- Dispatch of a ReadFile message reduces to running the read_file
handler and completing. -/
theorem handle_message_read_file (env : ServerEnv) (p : String) (id tx : Nat) (s : ServerState) :
    Server.handle_message env ⟨id, .readFile p⟩ tx s
      = finishDispatch id (Server.read_file env p ⟨id, tx⟩ s) := rfl

/-- Dispatch of an AddWorktree message reduces to running the add_worktree
handler and completing. -/
theorem handle_message_add_worktree (env : ServerEnv) (p : String) (id tx : Nat) (s : ServerState) :
    Server.handle_message env ⟨id, .addWorktree p⟩ tx s
      = finishDispatch id (Server.add_worktree env p ⟨id, tx⟩ s) := rfl

/-- Dispatch of a message whose payload kind has no registry entry: the
fixed protocol error is sent, followed by the marker as the correlator is
discarded. -/
theorem handle_message_unregistered (env : ServerEnv) (n : String) (id tx : Nat) (s : ServerState) :
    Server.handle_message env ⟨id, .unregistered n⟩ tx s
      = { sent := [errorEnvelope id "unhandled request type", markerEnvelope id]
          effects := []
          state := s
          panicked := none } := rfl

/-- Filtering for the terminal frames of a request distributes over
channel-trace concatenation. -/
theorem terminalFrames_append (reqId : Nat) (xs ys : List Envelope) :
    terminalFrames reqId (xs ++ ys) = terminalFrames reqId xs ++ terminalFrames reqId ys := by
  simp [terminalFrames, List.filter_append]

/-- The completion marker of a request is one of its terminal frames. -/
theorem terminalFrames_marker (reqId : Nat) :
    terminalFrames reqId [markerEnvelope reqId] = [markerEnvelope reqId] := by
  simp [terminalFrames, markerEnvelope]

/-- Whenever the handler does not retain the correlator, dispatch
completion puts at least one terminal frame for the request on the
channel (the marker, preceded by an error frame on an Err outcome). -/
theorem one_le_terminal_finish (reqId : Nat) (r : HandlerRun) (h : r.retained = false) :
    1 ≤ (terminalFrames reqId (finishDispatch reqId r).sent).length := by
  cases ho : r.outcome <;>
    simp [finishDispatch, ho, h, terminalFrames, List.filter_append, markerEnvelope,
      errorEnvelope, mkReply]

/-- On a sequence with a failing entry, the drain loop of read_dir aborts
with the first such failure. -/
theorem drainDir_firstError (items : List (Except String String)) (e : String)
    (h : firstError items = some e) : drainDir items = .error e := by
  induction items with
  | nil => simp [firstError] at h
  | cons hd tl ih =>
    cases hd with
    | error e' =>
      simp [firstError] at h
      simp [drainDir, h]
    | ok p =>
      simp only [firstError] at h
      simp only [drainDir, ih h]

/-- On an error-free sequence, the drain loop of read_dir collects every
entry's path in order. -/
theorem drainDir_ok (items : List (Except String String))
    (h : firstError items = none) : drainDir items = .ok (okPaths items) := by
  induction items with
  | nil => rfl
  | cons hd tl ih =>
    cases hd with
    | error e' => simp [firstError] at h
    | ok p =>
      simp only [firstError] at h
      simp only [drainDir, okPaths, ih h]

/-- Claim C1, amended: for every inbound message handled by
handle_message — registered or unregistered kind, handler sending
explicitly, returning success without sending, failing, or panicking —
at least one terminal frame bearing responding_to = request.id is emitted
on the outbound channel; the correlator's discard fallback supplies such
a frame whenever no explicit send happened. Exactly one is not
guaranteed: the fallback marker fires on every discard, so an explicit
send or error reply is followed by a second terminal frame unless the
handler retains the correlator, as add_worktree does. -/
theorem C1_dispatch_at_least_one_terminal (env : ServerEnv) (msg : OpaqueMsg) (tx : Nat) (s : ServerState) :
    1 ≤ (terminalFrames msg.message_id (Server.handle_message env msg tx s).sent).length := by
  obtain ⟨id, p⟩ := msg
  cases p with
  | ping =>
    rw [handle_message_ping]
    exact one_le_terminal_finish id _ rfl
  | writeFile pa c le =>
    rw [handle_message_write_file]
    apply one_le_terminal_finish
    rcases hs : env.fs.save pa c
        (if le = writeFileLineEndingUnixValue then LineEnding.unix else LineEnding.windows) with e | u <;>
      simp [Server.write_file, hs]
  | stat pa =>
    rw [handle_message_stat]
    apply one_le_terminal_finish
    rcases hm : env.fs.metadata pa with e | m
    · simp [Server.stat, hm]
    · rcases m with _ | md
      · simp [Server.stat, hm]
      · rcases lt_or_le md.mtime 0 with hmt | hmt
        · simp [Server.stat, hm, hmt]
        · simp [Server.stat, hm, not_lt.2 hmt]
  | canonicalize pa =>
    rw [handle_message_canonicalize]
    apply one_le_terminal_finish
    rcases hc : env.fs.canonicalize pa with e | t <;> simp [Server.canonicalize, hc]
  | readLink pa =>
    rw [handle_message_read_link]
    apply one_le_terminal_finish
    rcases hc : env.fs.read_link pa with e | t <;> simp [Server.read_link, hc]
  | readDir pa =>
    rw [handle_message_read_dir]
    apply one_le_terminal_finish
    rcases hc : env.fs.read_dir pa with e | items
    · simp [Server.read_dir, hc]
    · rcases hd : drainDir items with e | ps <;> simp [Server.read_dir, hc, hd]
  | readFile pa =>
    rw [handle_message_read_file]
    apply one_le_terminal_finish
    rcases hl : env.fs.load pa with e | c <;> simp [Server.read_file, hl]
  | addWorktree pa =>
    rw [handle_message_add_worktree]
    rcases hw : env.worktreeLocal pa s.next_entry_id with e | wt
    · apply one_le_terminal_finish
      simp [Server.add_worktree, hw]
    · simp [Server.add_worktree, hw, addWorktreeCommit, finishDispatch, terminalFrames, mkReply]
  | unregistered n =>
    rw [handle_message_unregistered]
    simp [terminalFrames, errorEnvelope, mkReply, markerEnvelope]

/-- Claim C1, counterexample to the claim as stated: a Ping at id 7 is
handled by a registered handler that sends its Ack explicitly and
resolves Ok, yet two frames bearing responding_to = 7 reach the outbound
channel — the Ack reply and then the empty completion marker emitted
unconditionally when the correlator is discarded — so the count is not
exactly one. -/
theorem C1_counterexample :
    (terminalFrames 7 (Server.handle_message envTest ⟨7, .ping⟩ 0 s0).sent).length = 2 ∧
    (terminalFrames 7 (Server.handle_message envTest ⟨7, .ping⟩ 0 s0).sent).length ≠ 1 := by
  decide

/-- Claim C2: for a Stat request whose path has no metadata (the metadata
call succeeds but returns absent), the handler sends no payload and
signals no error; the only terminal frame on the channel is the automatic
empty completion marker, with payload none and responding_to the request
id, and no panic occurs. -/
theorem C2_stat_absent_only_marker (env : ServerEnv) (p : String) (id tx : Nat) (s : ServerState)
    (h : env.fs.metadata p = .ok none) :
    (Server.handle_message env ⟨id, .stat p⟩ tx s).sent = [markerEnvelope id] ∧
    (markerEnvelope id).payload = none ∧
    (markerEnvelope id).responding_to = some id ∧
    (Server.handle_message env ⟨id, .stat p⟩ tx s).panicked = none := by
  rw [handle_message_stat]
  refine ⟨?_, rfl, rfl, ?_⟩ <;> simp [Server.stat, h, finishDispatch]

/-- Claim C2 witness at a concrete input: on fsTest no path has metadata,
and dispatching Stat at id 9 yields exactly the empty completion
marker. -/
theorem C2_witness :
    fsTest.metadata "/missing" = Except.ok none ∧
    ((Server.handle_message envTest ⟨9, .stat "/missing"⟩ 0 s0).sent = [markerEnvelope 9] ∧
      (markerEnvelope 9).payload = none ∧
      (markerEnvelope 9).responding_to = some 9 ∧
      (Server.handle_message envTest ⟨9, .stat "/missing"⟩ 0 s0).panicked = none) :=
  ⟨rfl, C2_stat_absent_only_marker envTest "/missing" 9 0 s0 rfl⟩

/-- Claim C3: for every inbound message whose payload kind has no entry in
the handler registry, handle_message immediately (as the first frame on
the channel) sends a terminal error frame whose message equals
"unhandled request type" and whose responding_to equals the original
message id, with code 0 and no tags. -/
theorem C3_unhandled_request_type (env : ServerEnv) (n : String) (id tx : Nat) (s : ServerState) :
    (Server.handle_message env ⟨id, .unregistered n⟩ tx s).sent.head?
        = some (errorEnvelope id "unhandled request type") ∧
    errorEnvelope id "unhandled request type"
      = { id := 0, original_sender_id := none,
          payload := some (.error 0 [] "unhandled request type"), responding_to := some id } := by
  exact ⟨rfl, rfl⟩

/-- Claim C4: for every request whose handler future resolves to an
error, dispatch puts a terminal error frame on the channel whose message
is the error's description, whose code is 0, whose tag list is empty, and
whose responding_to is the request id. -/
theorem C4_handler_error_frame (env : ServerEnv) (msg : OpaqueMsg) (tx : Nat) (s : ServerState)
    (h : MessageHandler) (r : HandlerRun) (e : String)
    (hl : lookupHandler Server.build_handlers msg.payload.typeId = some h)
    (hr : h.run env msg { id := msg.message_id, tx := tx } s = some r)
    (he : r.outcome = .error e) :
    errorEnvelope msg.message_id e ∈ (Server.handle_message env msg tx s).sent ∧
    errorEnvelope msg.message_id e
      = { id := 0, original_sender_id := none, payload := some (.error 0 [] e),
          responding_to := some msg.message_id } := by
  refine ⟨?_, rfl⟩
  simp only [Server.handle_message, hl, hr, finishDispatch, he]
  simp

/-- Claim C4 witness at a concrete input: on fsTest reading any file
fails with "No such file", and dispatching ReadFile at id 8 puts the
corresponding error frame on the channel. -/
theorem C4_witness :
    errorEnvelope 8 "No such file" ∈ (Server.handle_message envTest ⟨8, .readFile "/missing"⟩ 0 s0).sent ∧
    errorEnvelope 8 "No such file"
      = { id := 0, original_sender_id := none, payload := some (.error 0 [] "No such file"),
          responding_to := some 8 } :=
  C4_handler_error_frame envTest ⟨8, .readFile "/missing"⟩ 0 s0 _ _ "No such file" rfl rfl rfl

/-- Claim C5: a successful add_worktree performs the observer
registration, the append of the new worktree, and the emission of the
reply carrying that worktree's id as the result of one single state
transaction (addWorktreeCommit, the body of the one state.update); the
commit appends exactly the fully registered worktree, the reply carries
the id of that appended worktree, and a second commit interleaved
afterwards observes the complete post-state of the first, never a
partially-updated list. -/
theorem C5_add_worktree_atomic (env : ServerEnv) (p : String) (id tx : Nat) (s : ServerState)
    (wt : Worktree) (h : env.worktreeLocal p s.next_entry_id = .ok wt) :
    Server.add_worktree env p ⟨id, tx⟩ s
      = { outcome := .ok
          frames := [(addWorktreeCommit ⟨id, tx⟩ wt s).2]
          effects := []
          retained := true
          state := (addWorktreeCommit ⟨id, tx⟩ wt s).1 } ∧
    (addWorktreeCommit ⟨id, tx⟩ wt s).1.worktrees
      = s.worktrees ++ [{ wt with observer := some { tx := tx } }] ∧
    (addWorktreeCommit ⟨id, tx⟩ wt s).2 = mkReply id (.addWorktreeResponse wt.wid) ∧
    ({ wt with observer := some { tx := tx } } : Worktree).wid = wt.wid ∧
    (∀ (resp₂ : ResponseInner) (wt₂ : Worktree),
      (addWorktreeCommit resp₂ wt₂ (addWorktreeCommit ⟨id, tx⟩ wt s).1).1.worktrees
        = s.worktrees ++ [{ wt with observer := some { tx := tx } },
            { wt₂ with observer := some { tx := resp₂.tx } }]) := by
  refine ⟨?_, rfl, rfl, rfl, ?_⟩
  · simp [Server.add_worktree, h]
  · intro resp₂ wt₂
    simp [addWorktreeCommit]

/-- Claim C5 witness at a concrete input: adding the worktree "/proj" on
the empty state appends exactly the registered worktree with id 42, and
an interleaved second commit sees the complete list. -/
theorem C5_witness :
    Server.add_worktree envTest "/proj" ⟨4, 5⟩ s0
      = { outcome := .ok
          frames := [(addWorktreeCommit ⟨4, 5⟩ { wid := 42, root := "/proj", observer := none } s0).2]
          effects := []
          retained := true
          state := (addWorktreeCommit ⟨4, 5⟩ { wid := 42, root := "/proj", observer := none } s0).1 } ∧
    (addWorktreeCommit ⟨6, 9⟩ { wid := 43, root := "/q", observer := none }
        (addWorktreeCommit ⟨4, 5⟩ { wid := 42, root := "/proj", observer := none } s0).1).1.worktrees
      = s0.worktrees ++ [{ wid := 42, root := "/proj", observer := some { tx := 5 } },
          { wid := 43, root := "/q", observer := some { tx := 9 } }] := by
  have h := C5_add_worktree_atomic envTest "/proj" 4 5 s0
    { wid := 42, root := "/proj", observer := none } rfl
  exact ⟨h.1, h.2.2.2.2 ⟨6, 9⟩ { wid := 43, root := "/q", observer := none }⟩

/-- Claim C6: after a successful add_worktree, the worktree appended to
the state carries an observer registered on the same outbound sender (tx)
that carried the reply; the observer forwards every update as an
unsolicited envelope with responding_to none, and forwarding a sequence
of updates produces envelopes on the channel in exactly the emission
order (the i-th envelope is the forwarding of the i-th update). -/
theorem C6_update_forwarding (env : ServerEnv) (p : String) (id tx : Nat) (s : ServerState)
    (wt : Worktree) (h : env.worktreeLocal p s.next_entry_id = .ok wt) :
    (Server.handle_message env ⟨id, .addWorktree p⟩ tx s).state.worktrees.getLast?
        = some { wt with observer := some { tx := tx } } ∧
    (Server.handle_message env ⟨id, .addWorktree p⟩ tx s).sent
        = [mkReply id (.addWorktreeResponse wt.wid)] ∧
    (∀ u : Nat, (observerEmit u).responding_to = none ∧
      (observerEmit u).payload = some (.worktreeUpdate u)) ∧
    (∀ us : List Nat, (observerForward us).length = us.length ∧
      ∀ (i : Nat) (h1 : i < (observerForward us).length) (h2 : i < us.length),
        (observerForward us).get ⟨i, h1⟩ = observerEmit (us.get ⟨i, h2⟩)) := by
  rw [handle_message_add_worktree]
  refine ⟨?_, ?_, fun u => ⟨rfl, rfl⟩, fun us => ⟨by simp [observerForward], ?_⟩⟩
  · simp [Server.add_worktree, h, addWorktreeCommit, finishDispatch]
  · simp [Server.add_worktree, h, addWorktreeCommit, finishDispatch]
  · intro i h1 h2
    simp [observerForward]

/-- Claim C6 witness at a concrete input: the worktree appended for
"/proj" carries the observer registered on sender 5, the reply is the
single frame sent, and forwarding the updates 3, 1, 2 yields their
envelopes in that order with responding_to none. -/
theorem C6_witness :
    (Server.handle_message envTest ⟨4, .addWorktree "/proj"⟩ 5 s0).state.worktrees.getLast?
        = some { wid := 42, root := "/proj", observer := some { tx := 5 } } ∧
    (Server.handle_message envTest ⟨4, .addWorktree "/proj"⟩ 5 s0).sent
        = [mkReply 4 (.addWorktreeResponse 42)] ∧
    observerForward [3, 1, 2] = [observerEmit 3, observerEmit 1, observerEmit 2] ∧
    (observerEmit 3).responding_to = none := by
  have h := C6_update_forwarding envTest "/proj" 4 5 s0
    { wid := 42, root := "/proj", observer := none } rfl
  exact ⟨h.1, h.2.1, rfl, (h.2.2.1 3).1⟩

/-- Claim C7: read_dir drains the directory-entry sequence completely
before sending anything: when some entry fails, the first such error
aborts the operation and becomes the terminal error frame, with no
partial path list ever sent (the channel carries only the error frame and
the discard marker); when no entry fails, the reply carries the paths of
all entries. -/
theorem C7_read_dir_drains (env : ServerEnv) (p : String) (id tx : Nat) (s : ServerState)
    (items : List (Except String String)) (h : env.fs.read_dir p = .ok items) :
    (∀ e, firstError items = some e →
      (Server.handle_message env ⟨id, .readDir p⟩ tx s).sent
        = [errorEnvelope id e, markerEnvelope id]) ∧
    (firstError items = none →
      (Server.handle_message env ⟨id, .readDir p⟩ tx s).sent
        = [mkReply id (.readDirResponse (okPaths items)), markerEnvelope id]) := by
  constructor
  · intro e he
    rw [handle_message_read_dir]
    simp [Server.read_dir, h, drainDir_firstError items e he, finishDispatch]
  · intro he
    rw [handle_message_read_dir]
    simp [Server.read_dir, h, drainDir_ok items he, finishDispatch]

/-- Claim C7 witness at a concrete input: on a directory whose entry
sequence is ok "/d/a", error "boom", ok "/d/b", dispatch sends the error
frame for "boom" followed only by the discard marker — no partial path
list. -/
theorem C7_witness :
    (Server.handle_message envDirErr ⟨11, .readDir "/d"⟩ 0 s0).sent
      = [errorEnvelope 11 "boom", markerEnvelope 11] :=
  (C7_read_dir_drains envDirErr "/d" 11 0 s0 [.ok "/d/a", .error "boom", .ok "/d/b"] rfl).1
    "boom" rfl

/-- Claim C8: every WriteFile request saves the content at the requested
path with the Unix line-ending convention exactly when the request's
line_ending field equals the Unix wire value and with the Windows
convention for every other value, and on a successful save the channel
carries no payload — only the completion marker. -/
theorem C8_write_file_line_ending (env : ServerEnv) (p c : String) (le : Int) (id tx : Nat)
    (s : ServerState) :
    (Server.handle_message env ⟨id, .writeFile p c le⟩ tx s).effects
        = [.save p c (if le = writeFileLineEndingUnixValue then LineEnding.unix else LineEnding.windows)] ∧
    (env.fs.save p c (if le = writeFileLineEndingUnixValue then LineEnding.unix else LineEnding.windows)
        = .ok () →
      (Server.handle_message env ⟨id, .writeFile p c le⟩ tx s).sent = [markerEnvelope id]) := by
  rw [handle_message_write_file]
  rcases hs : env.fs.save p c
      (if le = writeFileLineEndingUnixValue then LineEnding.unix else LineEnding.windows) with e | u
  · constructor
    · simp [Server.write_file, hs, finishDispatch]
    · intro hh
      cases hh
  · constructor
    · simp [Server.write_file, hs, finishDispatch]
    · intro _
      simp [Server.write_file, hs, finishDispatch]

/-- Claim C8 witness at a concrete input: the unrecognized line_ending
value 5 falls back to the Windows convention, and the successful save at
id 12 is followed only by the completion marker. -/
theorem C8_witness :
    (Server.handle_message envTest ⟨12, .writeFile "/f" "hi" 5⟩ 0 s0).effects
      = [.save "/f" "hi" LineEnding.windows] ∧
    (Server.handle_message envTest ⟨12, .writeFile "/f" "hi" 5⟩ 0 s0).sent = [markerEnvelope 12] := by
  have h := C8_write_file_line_ending envTest "/f" "hi" 5 12 0 s0
  exact ⟨h.1, h.2 rfl⟩

/-- Claim C9: whenever dispatch finds a registry entry by the incoming
message's kind identity, that entry's downcast of the opaque message to
the handler's declared concrete request type succeeds (the unwrap is
unreachable), because the registry key is the kind identity that same
concrete type declares. -/
theorem C9_downcast_total (p : RequestPayload) (id : Nat) (env : ServerEnv)
    (resp : ResponseInner) (s : ServerState) (h : MessageHandler)
    (hl : lookupHandler Server.build_handlers p.typeId = some h) :
    h.run env ⟨id, p⟩ resp s ≠ none := by
  cases p with
  | ping =>
    simp only [RequestPayload.typeId] at hl
    rw [(rfl : lookupHandler Server.build_handlers MsgKind.ping
        = some (eraseHandler pingType Server.ping))] at hl
    obtain rfl : h = eraseHandler pingType Server.ping := (Option.some.inj hl).symm
    simp [eraseHandler, pingType, asPing]
  | writeFile pa c le =>
    simp only [RequestPayload.typeId] at hl
    rw [(rfl : lookupHandler Server.build_handlers MsgKind.writeFile
        = some (eraseHandler writeFileType Server.write_file))] at hl
    obtain rfl : h = eraseHandler writeFileType Server.write_file := (Option.some.inj hl).symm
    simp [eraseHandler, writeFileType, asWriteFile]
  | stat pa =>
    simp only [RequestPayload.typeId] at hl
    rw [(rfl : lookupHandler Server.build_handlers MsgKind.stat
        = some (eraseHandler statType Server.stat))] at hl
    obtain rfl : h = eraseHandler statType Server.stat := (Option.some.inj hl).symm
    simp [eraseHandler, statType, asStat]
  | canonicalize pa =>
    simp only [RequestPayload.typeId] at hl
    rw [(rfl : lookupHandler Server.build_handlers MsgKind.canonicalize
        = some (eraseHandler canonicalizeType Server.canonicalize))] at hl
    obtain rfl : h = eraseHandler canonicalizeType Server.canonicalize := (Option.some.inj hl).symm
    simp [eraseHandler, canonicalizeType, asCanonicalize]
  | readLink pa =>
    simp only [RequestPayload.typeId] at hl
    rw [(rfl : lookupHandler Server.build_handlers MsgKind.readLink
        = some (eraseHandler readLinkType Server.read_link))] at hl
    obtain rfl : h = eraseHandler readLinkType Server.read_link := (Option.some.inj hl).symm
    simp [eraseHandler, readLinkType, asReadLink]
  | readDir pa =>
    simp only [RequestPayload.typeId] at hl
    rw [(rfl : lookupHandler Server.build_handlers MsgKind.readDir
        = some (eraseHandler readDirType Server.read_dir))] at hl
    obtain rfl : h = eraseHandler readDirType Server.read_dir := (Option.some.inj hl).symm
    simp [eraseHandler, readDirType, asReadDir]
  | readFile pa =>
    simp only [RequestPayload.typeId] at hl
    rw [(rfl : lookupHandler Server.build_handlers MsgKind.readFile
        = some (eraseHandler readFileType Server.read_file))] at hl
    obtain rfl : h = eraseHandler readFileType Server.read_file := (Option.some.inj hl).symm
    simp [eraseHandler, readFileType, asReadFile]
  | addWorktree pa =>
    simp only [RequestPayload.typeId] at hl
    rw [(rfl : lookupHandler Server.build_handlers MsgKind.addWorktree
        = some (eraseHandler addWorktreeType Server.add_worktree))] at hl
    obtain rfl : h = eraseHandler addWorktreeType Server.add_worktree := (Option.some.inj hl).symm
    simp [eraseHandler, addWorktreeType, asAddWorktree]
  | unregistered n =>
    simp only [RequestPayload.typeId] at hl
    rw [(rfl : lookupHandler Server.build_handlers (MsgKind.other n)
        = (none : Option MessageHandler))] at hl
    cases hl

/-- Claim C9 witness at a concrete input: the registry entry found for a
ReadFile message downcasts it successfully. -/
theorem C9_witness :
    (eraseHandler readFileType Server.read_file).run envTest ⟨8, .readFile "/x"⟩ ⟨8, 0⟩ s0 ≠ none :=
  C9_downcast_total (.readFile "/x") 8 envTest ⟨8, 0⟩ s0
    (eraseHandler readFileType Server.read_file) rfl

/-- Claim C10: the stat handler is not total over successful metadata
results — when metadata exists with an mtime earlier than the Unix epoch,
the duration_since unwrap panics: the handler's outcome is a panic with
nothing sent through its own error path (no error frame, no payload
frame), and dispatch records the panic, the channel carrying only the
marker emitted while unwinding. -/
theorem C10_stat_pre_epoch_panics (env : ServerEnv) (p : String) (id tx : Nat) (s : ServerState)
    (md : Metadata) (h1 : env.fs.metadata p = .ok (some md)) (h2 : md.mtime < 0) :
    (Server.stat env p ⟨id, tx⟩ s).outcome = .panicked mtimePanicMessage ∧
    (Server.stat env p ⟨id, tx⟩ s).frames = [] ∧
    (Server.handle_message env ⟨id, .stat p⟩ tx s).panicked = some mtimePanicMessage ∧
    (Server.handle_message env ⟨id, .stat p⟩ tx s).sent = [markerEnvelope id] := by
  rw [handle_message_stat]
  refine ⟨?_, ?_, ?_, ?_⟩ <;> simp [Server.stat, h1, h2, finishDispatch]

/-- Claim C10 witness at a concrete input: on fsPreEpoch every path's
metadata has mtime one millisecond before the epoch, and Stat at id 13
panics instead of replying through the handler's error path. -/
theorem C10_witness :
    fsPreEpoch.metadata "/f"
        = Except.ok (some { is_dir := false, is_symlink := false, mtime := -1, inode := 17 }) ∧
    ((Server.stat envPreEpoch "/f" ⟨13, 0⟩ s0).outcome = .panicked mtimePanicMessage ∧
      (Server.stat envPreEpoch "/f" ⟨13, 0⟩ s0).frames = [] ∧
      (Server.handle_message envPreEpoch ⟨13, .stat "/f"⟩ 0 s0).panicked = some mtimePanicMessage ∧
      (Server.handle_message envPreEpoch ⟨13, .stat "/f"⟩ 0 s0).sent = [markerEnvelope 13]) :=
  ⟨rfl, C10_stat_pre_epoch_panics envPreEpoch "/f" 13 0 s0
    { is_dir := false, is_symlink := false, mtime := -1, inode := 17 } rfl (by decide)⟩

end RemoteServer
